import Mathlib

/-!
Shallow embedding of `ramsey_chevron.py` (IntermodulationProducts/presto-measure).

Python floats are modelled as exact rationals `ℚ`; complex store samples as
pairs `ℚ × ℚ` (real, imaginary).  The vendor SDK (`presto.pulsed`) is modelled
as an environment `SdkEnv` supplying the responses of its query functions
(`get_fs("dac")`, `get_clk_f`, `get_clk_T`, `get_store_data`), and every call
the program issues to the SDK is recorded as an `SdkCall` event in a trace.
Phase arguments (which are multiples of π in the source) are recorded in units
of π; pulse-envelope sample values, which are produced by the external
`presto.utils.sin2`, are abstracted to the template length, which the source
computes itself as `int(round(control_duration * fs_dac))`.
-/

/-- Complex sample value: (real, imaginary) parts as exact rationals. -/
abbrev Cq : Type := ℚ × ℚ

/-- Sum of a list of complex samples, componentwise. -/
def cSum (l : List Cq) : Cq := l.foldr (fun a b => (a.1 + b.1, a.2 + b.2)) (0, 0)

/-- Mean of a list of complex samples (`np.mean` along the last axis). -/
def cMean (l : List Cq) : Cq := ((cSum l).1 / l.length, (cSum l).2 / l.length)

/-- The numpy call `np.linspace(start, stop, num)` with `endpoint=True` (the default), in exact
arithmetic: `num` points `start + i*(stop-start)/(num-1)`; `[]` for `num = 0`
and `[start]` for `num = 1`. -/
def linspace (start stop : ℚ) (num : ℕ) : List ℚ :=
  if num = 0 then []
  else if num = 1 then [start]
  else (List.range num).map fun i => start + i * (stop - start) / (num - 1)

/-- Python 3 `round` on a real value: round half to even (bankers rounding). -/
def pyRound (q : ℚ) : ℤ :=
  if q - ⌊q⌋ < 1 / 2 then ⌊q⌋
  else if q - ⌊q⌋ > 1 / 2 then ⌊q⌋ + 1
  else if ⌊q⌋ % 2 = 0 then ⌊q⌋ else ⌊q⌋ + 1

/-- The `delay_arr` argument accepted by `RamseyChevron.__init__`: a scalar
number or a 1-D list/array of numbers. -/
inductive DelayInput : Type
  | scalar (x : ℚ)
  | arr (xs : List ℚ)
deriving DecidableEq

/-- Embedding of `np.atleast_1d` on a scalar-or-1-D input (the `.astype(np.float64)` cast is
the identity in the exact-rational model). -/
def atleast1d : DelayInput → List ℚ
  | DelayInput.scalar x => [x]
  | DelayInput.arr xs => xs

/-- The `jpa_params` dict: keys used by `run`. -/
structure JpaParams : Type where
  pump_freq : ℚ
  pump_pwr : ℚ
  pump_port : ℕ
  bias : ℚ
  bias_port : ℕ
deriving DecidableEq

/-- The `RamseyChevron` object: the constructor parameters plus the three
fields set by `run`/`load` (`None` until then). -/
structure RamseyChevron : Type where
  readout_freq : ℚ
  control_freq_center : ℚ
  control_freq_span : ℚ
  control_freq_nr : ℕ
  readout_amp : ℚ
  control_amp : ℚ
  readout_duration : ℚ
  control_duration : ℚ
  sample_duration : ℚ
  delay_arr : List ℚ
  readout_port : ℕ
  control_port : ℕ
  sample_port : ℕ
  wait_delay : ℚ
  readout_sample_delay : ℚ
  num_averages : ℕ
  jpa_params : Option JpaParams
  drag : ℚ
  control_freq_arr : Option (List ℚ)
  t_arr : Option (List ℚ)
  store_arr : Option (List (List (List Cq)))
deriving DecidableEq

/-- The constructor `RamseyChevron.__init__`: stores every parameter verbatim, except that
`delay_arr` goes through `np.atleast_1d(...).astype(np.float64)`; the three
run-produced fields start out as `None`. -/
def mkRamseyChevron (readout_freq control_freq_center control_freq_span : ℚ)
    (control_freq_nr : ℕ)
    (readout_amp control_amp readout_duration control_duration sample_duration : ℚ)
    (delay_arr : DelayInput) (readout_port control_port sample_port : ℕ)
    (wait_delay readout_sample_delay : ℚ) (num_averages : ℕ)
    (jpa_params : Option JpaParams) (drag : ℚ) : RamseyChevron :=
  { readout_freq := readout_freq
    control_freq_center := control_freq_center
    control_freq_span := control_freq_span
    control_freq_nr := control_freq_nr
    readout_amp := readout_amp
    control_amp := control_amp
    readout_duration := readout_duration
    control_duration := control_duration
    sample_duration := sample_duration
    delay_arr := atleast1d delay_arr
    readout_port := readout_port
    control_port := control_port
    sample_port := sample_port
    wait_delay := wait_delay
    readout_sample_delay := readout_sample_delay
    num_averages := num_averages
    jpa_params := jpa_params
    drag := drag
    control_freq_arr := none
    t_arr := none
    store_arr := none }

/-- Responses of the vendor SDK query functions, plus the filename produced
by `Base.save` (which stamps it from the current date and time). -/
structure SdkEnv : Type where
  fs_dac : ℚ
  clk_f : ℚ
  clk_T : ℚ
  store_t_arr : List ℚ
  store_data : List (List (List Cq))
  save_filename : String
deriving DecidableEq

/-- The two pulse objects created by `run`. -/
inductive PulseId : Type
  | readout
  | control
deriving DecidableEq

/-- A scalar-or-array numeric argument (numpy broadcasting). -/
inductive NumArg : Type
  | scalar (x : ℚ)
  | arr (xs : List ℚ)
deriving DecidableEq

/-- One call into the vendor SDK, with its arguments.  Phase arguments are
recorded in units of π; the control template is recorded by its length (the
envelope sample values come from the external `presto.utils.sin2`). -/
inductive SdkCall : Type
  | set_adc_attenuation (port : ℕ) (att : ℚ)
  | set_dac_current (port : ℕ) (current : ℕ)
  | set_inv_sinc (port : ℕ) (n : ℕ)
  | configure_mixer (freq : ℚ) (in_ports : Option ℕ) (out_ports : ℕ) (sync : Bool)
  | set_lmx (freq pwr : ℚ) (port : ℕ)
  | set_dc_bias (bias : ℚ) (port : ℕ)
  | sleep (t : ℚ) (b : Bool)
  | setup_freq_lut (port group : ℕ) (frequencies phases phases_q : NumArg)
  | setup_scale_lut (port group : ℕ) (scales : ℚ)
  | setup_long_drive (port group : ℕ) (duration amplitude amplitude_q rise_time fall_time : ℚ)
  | setup_template (port group : ℕ) (template_len : ℤ) (has_template_q envelope : Bool)
  | set_store_ports (port : ℕ)
  | set_store_duration (d : ℚ)
  | reset_phase (t : ℚ) (port : ℕ)
  | output_pulse (t : ℚ) (pulse : PulseId)
  | store (t : ℚ)
  | next_frequency (t : ℚ) (port : ℕ)
  | run_exp (period : ℚ) (repeat_count num_averages : ℕ)
  | get_store_data
  | save
deriving DecidableEq

/-- Exceptions the embedded `run` can raise. -/
inductive RunError : Type
  | assertionError
  | zeroDivisionError
deriving DecidableEq

deriving instance DecidableEq for Except

/-- Result of a call to `run`: the trace of SDK calls issued before returning
or raising, the (possibly mutated) `self`, and either the returned filename or
the exception raised. -/
structure RunOutcome : Type where
  trace : List SdkCall
  final : RamseyChevron
  result : Except RunError String
deriving DecidableEq

/-- Module constant `DAC_CURRENT = 32_000` (uA). -/
def DAC_CURRENT : ℕ := 32000

/-- Module constant `IDX_LOW = 1_500`. -/
def IDX_LOW : ℕ := 1500

/-- Module constant `IDX_HIGH = 2_000`. -/
def IDX_HIGH : ℕ := 2000

/-- The `pls.hardware.*` configuration calls issued by `run` when
`jpa_params` is not `None` (pump on, bias on, sleep). -/
def jpaOnCalls (self : RamseyChevron) : List SdkCall :=
  match self.jpa_params with
  | none => []
  | some jp =>
      [SdkCall.set_lmx jp.pump_freq jp.pump_pwr jp.pump_port,
       SdkCall.set_dc_bias jp.bias jp.bias_port,
       SdkCall.sleep 1 false]

/-- The block of `pls.hardware.*` configuration calls at the top of `run`,
in source order. -/
def hwConfigCalls (self : RamseyChevron) (control_nco : ℚ) : List SdkCall :=
  [SdkCall.set_adc_attenuation self.sample_port 0,
   SdkCall.set_dac_current self.readout_port DAC_CURRENT,
   SdkCall.set_dac_current self.control_port DAC_CURRENT,
   SdkCall.set_inv_sinc self.readout_port 0,
   SdkCall.set_inv_sinc self.control_port 0,
   SdkCall.configure_mixer self.readout_freq (some self.sample_port) self.readout_port false,
   SdkCall.configure_mixer control_nco none self.control_port true]
  ++ jpaOnCalls self

/-- Number of samples in the control template:
`control_ns = int(round(control_duration * pls.get_fs("dac")))`. -/
def controlNs (env : SdkEnv) (self : RamseyChevron) : ℤ :=
  pyRound (self.control_duration * env.fs_dac)

/-- The measurement-parameter setup calls of `run` (frequency LUTs, scale
LUTs, readout long drive, control template, store ports and duration), in
source order.  `phases_q = full_like(control_if_arr, -π/2)` is recorded as the
constant list `-1/2` in units of π; `template_q` is the envelope itself when
`drag == 0.0` and `None` otherwise. -/
def setupCalls (env : SdkEnv) (self : RamseyChevron) (control_if_arr : List ℚ) : List SdkCall :=
  [SdkCall.setup_freq_lut self.readout_port 0 (NumArg.scalar 0) (NumArg.scalar 0)
     (NumArg.scalar 0),
   SdkCall.setup_freq_lut self.control_port 0 (NumArg.arr control_if_arr)
     (NumArg.arr (List.replicate control_if_arr.length 0))
     (NumArg.arr (List.replicate control_if_arr.length (-(1 / 2)))),
   SdkCall.setup_scale_lut self.readout_port 0 self.readout_amp,
   SdkCall.setup_scale_lut self.control_port 0 1,
   SdkCall.setup_long_drive self.readout_port 0 self.readout_duration 1 1 0 0,
   SdkCall.setup_template self.control_port 0 (controlNs env self)
     (decide (self.drag = 0)) true,
   SdkCall.set_store_ports self.sample_port,
   SdkCall.set_store_duration self.sample_duration]

/-- One iteration of the pulse-sequence loop `for delay in self.delay_arr`:
threads the accumulated time `T` and appends the scheduled calls, exactly as
the source does. -/
def seqStep (self : RamseyChevron) (st : ℚ × List SdkCall) (delay : ℚ) : ℚ × List SdkCall :=
  let T0 := st.1
  let tr0 := st.2 ++ [SdkCall.reset_phase st.1 self.control_port,
                      SdkCall.output_pulse st.1 PulseId.control]
  let T1 := T0 + self.control_duration
  let T2 := T1 + delay
  let tr1 := tr0 ++ [SdkCall.output_pulse T2 PulseId.control]
  let T3 := T2 + self.control_duration
  let tr2 := tr1 ++ [SdkCall.reset_phase T3 self.readout_port,
                     SdkCall.output_pulse T3 PulseId.readout,
                     SdkCall.store (T3 + self.readout_sample_delay)]
  let T4 := T3 + self.readout_duration
  (T4 + self.wait_delay, tr2)

/-- The whole pulse-sequence loop, folded over `delay_arr`. -/
def seqLoop (self : RamseyChevron) (delays : List ℚ) (init : ℚ × List SdkCall) :
    ℚ × List SdkCall :=
  delays.foldl (seqStep self) init

/-- The JPA period adjustment of `run`: with `jpa_params` set, snaps the
period `T` to one clock cycle past a multiple of the idler period.  Raises
`ZeroDivisionError` where Python would: at `1 / idler_if` when `idler_if` is
zero, and at `T_clk % idler_period_clk` when `idler_period_clk` is zero. -/
def jpaAdjustT (env : SdkEnv) (self : RamseyChevron) (T : ℚ) : Except RunError ℚ :=
  match self.jpa_params with
  | none => Except.ok T
  | some jp =>
      let idler_freq := jp.pump_freq - self.readout_freq
      let idler_if := |idler_freq - self.readout_freq|
      if idler_if = 0 then Except.error RunError.zeroDivisionError
      else
        let idler_period := 1 / idler_if
        let T_clk := pyRound (T * env.clk_f)
        let idler_period_clk := pyRound (idler_period * env.clk_f)
        if idler_period_clk = 0 then Except.error RunError.zeroDivisionError
        else
          let T_clk1 := if T_clk % idler_period_clk > 0
            then T_clk + (idler_period_clk - T_clk % idler_period_clk) else T_clk
          Except.ok ((T_clk1 + 1) * env.clk_T)

/-- The `pls.hardware.*` calls issued after data acquisition when
`jpa_params` is not `None` (pump off, bias off). -/
def jpaOffCalls (self : RamseyChevron) : List SdkCall :=
  match self.jpa_params with
  | none => []
  | some jp =>
      [SdkCall.set_lmx 0 0 jp.pump_port,
       SdkCall.set_dc_bias 0 jp.bias_port]

/-- The persisted file: the self-describing attribute-plus-array bag.  Each
field is `Option`-valued so that a file missing an attribute (as older files
miss `"drag"`) can be represented. -/
structure SaveFile : Type where
  readout_freq : Option ℚ
  control_freq_center : Option ℚ
  control_freq_span : Option ℚ
  control_freq_nr : Option ℕ
  readout_amp : Option ℚ
  control_amp : Option ℚ
  readout_duration : Option ℚ
  control_duration : Option ℚ
  sample_duration : Option ℚ
  delay_arr : Option (List ℚ)
  readout_port : Option ℕ
  control_port : Option ℕ
  sample_port : Option ℕ
  wait_delay : Option ℚ
  readout_sample_delay : Option ℚ
  num_averages : Option ℕ
  jpa_params : Option (Option JpaParams)
  control_freq_arr : Option (List ℚ)
  t_arr : Option (List ℚ)
  store_arr : Option (List (List (List Cq)))
  drag : Option ℚ
deriving DecidableEq

/-- Modelled from the spec: `Base.save` (defined in `_base.py`, which is not
part of the sources here) persists the instance to "a self-describing
attribute-plus-array file"; entities are "flat parameter bags ... and raw
numeric arrays ... persisted verbatim to a file".  Every attribute and array
of the instance is written verbatim (`jpa_params` through `str`, inverted by
`ast.literal_eval` on load, which round-trips). -/
def mkSaveFile (self : RamseyChevron) : SaveFile :=
  { readout_freq := some self.readout_freq
    control_freq_center := some self.control_freq_center
    control_freq_span := some self.control_freq_span
    control_freq_nr := some self.control_freq_nr
    readout_amp := some self.readout_amp
    control_amp := some self.control_amp
    readout_duration := some self.readout_duration
    control_duration := some self.control_duration
    sample_duration := some self.sample_duration
    delay_arr := some self.delay_arr
    readout_port := some self.readout_port
    control_port := some self.control_port
    sample_port := some self.sample_port
    wait_delay := some self.wait_delay
    readout_sample_delay := some self.readout_sample_delay
    num_averages := some self.num_averages
    jpa_params := some self.jpa_params
    control_freq_arr := self.control_freq_arr
    t_arr := self.t_arr
    store_arr := self.store_arr
    drag := some self.drag }

/-- Modelled from the spec: `Base.save` returns the filename it wrote (stamped
from date and time, here supplied by the environment) together with the file
contents. -/
def baseSave (env : SdkEnv) (self : RamseyChevron) : String × SaveFile :=
  (env.save_filename, mkSaveFile self)

/-- The body of `run` after the two assertions have passed, in source order:
frequency bookkeeping, hardware configuration, measurement setup, the pulse
sequence, the optional JPA period adjustment, `pls.run`, `get_store_data`,
JPA pump-off, and the final `self.save()`. -/
def runBody (env : SdkEnv) (self : RamseyChevron) : RunOutcome :=
  let control_if_center := env.fs_dac / 4
  let control_if_start := control_if_center - self.control_freq_span / 2
  let control_if_stop := control_if_center + self.control_freq_span / 2
  let control_if_arr := linspace control_if_start control_if_stop self.control_freq_nr
  let control_nco := self.control_freq_center - control_if_center
  let self1 := { self with control_freq_arr := some (control_if_arr.map fun x => control_nco + x) }
  let tr0 := hwConfigCalls self1 control_nco ++ setupCalls env self1 control_if_arr
  let loopRes := seqLoop self1 self1.delay_arr (0, tr0)
  let tr1 := loopRes.2 ++ [SdkCall.next_frequency loopRes.1 self1.control_port]
  let T := loopRes.1 + self1.wait_delay
  match jpaAdjustT env self1 T with
  | Except.error e => { trace := tr1, final := self1, result := Except.error e }
  | Except.ok T2 =>
      let tr2 := tr1 ++ [SdkCall.run_exp T2 self1.control_freq_nr self1.num_averages,
                         SdkCall.get_store_data]
      let self2 := { self1 with t_arr := some env.store_t_arr,
                                store_arr := some env.store_data }
      let tr3 := tr2 ++ jpaOffCalls self2 ++ [SdkCall.save]
      { trace := tr3, final := self2, result := Except.ok (baseSave env self2).1 }

/-- The method `RamseyChevron.run`: first the two assertions
(`control_freq_center > control_freq_span / 2` and
`control_freq_span < fs_dac / 2`), then the body. -/
def run (env : SdkEnv) (self : RamseyChevron) : RunOutcome :=
  if self.control_freq_center > self.control_freq_span / 2 then
    if self.control_freq_span < env.fs_dac / 2 then
      runBody env self
    else { trace := [], final := self, result := Except.error RunError.assertionError }
  else { trace := [], final := self, result := Except.error RunError.assertionError }

/-- The classmethod `RamseyChevron.load`: reads every attribute and dataset from the file —
a missing one raises (here: `none`) — except `"drag"`, which is read inside
`try/except KeyError` and defaults to `0.0`; then rebuilds the instance
through the constructor and restores the three arrays. -/
def load (f : SaveFile) : Option RamseyChevron :=
  match f.readout_freq, f.control_freq_center, f.control_freq_span, f.control_freq_nr,
    f.readout_amp, f.control_amp, f.readout_duration, f.control_duration,
    f.sample_duration, f.delay_arr, f.readout_port, f.control_port, f.sample_port,
    f.wait_delay, f.readout_sample_delay, f.num_averages, f.jpa_params,
    f.control_freq_arr, f.t_arr, f.store_arr with
  | some readout_freq, some control_freq_center, some control_freq_span,
    some control_freq_nr, some readout_amp, some control_amp, some readout_duration,
    some control_duration, some sample_duration, some delay_arr, some readout_port,
    some control_port, some sample_port, some wait_delay, some readout_sample_delay,
    some num_averages, some jpa_params, some control_freq_arr, some t_arr,
    some store_arr =>
      let drag := match f.drag with
        | some d => d
        | none => 0
      let self := mkRamseyChevron readout_freq control_freq_center control_freq_span
        control_freq_nr readout_amp control_amp readout_duration control_duration
        sample_duration (DelayInput.arr delay_arr) readout_port control_port sample_port
        wait_delay readout_sample_delay num_averages jpa_params drag
      some { self with control_freq_arr := some control_freq_arr,
                       t_arr := some t_arr,
                       store_arr := some store_arr }
  | _, _, _, _, _, _, _, _, _, _, _, _, _, _, _, _, _, _, _, _ => none

/-- The array `resp_arr = np.mean(self.store_arr[:, 0, idx], axis=-1)` with
`idx = np.arange(IDX_LOW, IDX_HIGH)`: for every repetition, the mean of
samples `IDX_LOW ≤ k < IDX_HIGH` of store port 0. -/
def respArr (store : List (List (List Cq))) : List Cq :=
  store.map fun rep => cMean (((rep.headD []).drop IDX_LOW).take (IDX_HIGH - IDX_LOW))

/-- Row-major reshape of a flat list into `nr` rows of `nd` entries
(`resp_arr.shape = (self.control_freq_nr, len(self.delay_arr))`). -/
def reshape2d (nr nd : ℕ) (l : List α) : List (List α) :=
  (List.range nr).map fun i => (l.drop (i * nd)).take nd

/-- The 2-D response map built by `analyze` before `rotate_opt`: the sliced
sample means, reshaped to `(control_freq_nr, len(delay_arr))`. -/
def respMap (nr nd : ℕ) (store : List (List (List Cq))) : List (List Cq) :=
  reshape2d nr nd (respArr store)

/-- An entry of a numpy float array that is written either with a number or
with `np.nan` (the fit-failure marker). -/
inductive FVal : Type
  | nan
  | val (x : ℚ)
deriving DecidableEq

/-- One iteration of the fit loop in `analyze`.  `_fit_simple` delegates to
`scipy.optimize.curve_fit` (external) over the 5-parameter model
`(offset, amplitude, T2, frequency, phase)`, so it is abstracted to an oracle
result: on success a pair `(popt, perr)` of 5-vectors, otherwise an
exception.  The `try` block runs `fit_freq[jj] = np.abs(res[3])` then
`err_freq[jj] = err[3]`; any exception is caught and `fit_freq[jj] = np.nan`
is written instead, leaving `err_freq[jj]` at its initial value. -/
def fitRowUpdate (acc : List FVal × List FVal) (jj : ℕ)
    (r : Except Unit ((Fin 5 → ℚ) × (Fin 5 → ℚ))) : List FVal × List FVal :=
  match r with
  | Except.error _ => (acc.1.set jj FVal.nan, acc.2)
  | Except.ok (popt, perr) =>
      (acc.1.set jj (FVal.val |popt 3|), acc.2.set jj (FVal.val (perr 3)))

/-- The fit loop of `analyze`: `fit_freq = np.zeros_like(...)`,
`err_freq = np.zeros_like(...)`, then `for jj in range(self.control_freq_nr)`
updating row `jj` from the (abstracted) `_fit_simple` result. -/
def analyzeFits (fit : ℕ → Except Unit ((Fin 5 → ℚ) × (Fin 5 → ℚ)))
    (control_freq_nr : ℕ) : List FVal × List FVal :=
  (List.range control_freq_nr).foldl (fun acc jj => fitRowUpdate acc jj (fit jj))
    (List.replicate control_freq_nr (FVal.val 0),
     List.replicate control_freq_nr (FVal.val 0))

/-- Claim-side description of one iteration of the pulse-sequence loop,
started at time `T` with Ramsey delay `d`: two control pulses whose starts
differ by `control_duration + d`, a readout pulse at the instant the second
control pulse ends, and a store at that readout time plus
`readout_sample_delay`. -/
def iterCalls (self : RamseyChevron) (T d : ℚ) : List SdkCall :=
  [SdkCall.reset_phase T self.control_port,
   SdkCall.output_pulse T PulseId.control,
   SdkCall.output_pulse (T + (self.control_duration + d)) PulseId.control,
   SdkCall.reset_phase (T + (self.control_duration + d) + self.control_duration)
     self.readout_port,
   SdkCall.output_pulse (T + (self.control_duration + d) + self.control_duration)
     PulseId.readout,
   SdkCall.store (T + (self.control_duration + d) + self.control_duration
     + self.readout_sample_delay)]

/-- Claim-side duration of one iteration of the pulse-sequence loop:
`2 * control_duration + delay + readout_duration + wait_delay`. -/
def iterPeriod (self : RamseyChevron) (d : ℚ) : ℚ :=
  2 * self.control_duration + d + self.readout_duration + self.wait_delay

/-- Claim-side description of the whole pulse sequence: the per-delay blocks
laid out in order, each iteration advancing the start time by its period. -/
def seqCallsFrom (self : RamseyChevron) : ℚ → List ℚ → List SdkCall
  | _, [] => []
  | T, d :: ds => iterCalls self T d ++ seqCallsFrom self (T + iterPeriod self d) ds

theorem linspace_map_add (c a b : ℚ) (n : ℕ) :
    (linspace a b n).map (fun x => c + x) = linspace (c + a) (c + b) n := by
  rcases n with _ | n
  · simp [linspace]
  rcases n with _ | n
  · simp [linspace]
  · simp only [linspace, if_neg (by omega : ¬ (n + 1 + 1 = 0)),
      if_neg (by omega : ¬ (n + 1 + 1 = 1)), List.map_map]
    refine List.map_congr_left ?_
    intro i _
    simp only [Function.comp_apply]
    ring

/-- Claim C1: with the two assertions satisfied, `run` sets
`self.control_freq_arr` to the `control_freq_nr` equally spaced frequencies
from `control_freq_center - control_freq_span/2` to
`control_freq_center + control_freq_span/2`. -/
theorem run_sets_control_freq_arr (env : SdkEnv) (self : RamseyChevron)
    (h1 : self.control_freq_center > self.control_freq_span / 2)
    (h2 : self.control_freq_span < env.fs_dac / 2) :
    (run env self).final.control_freq_arr =
      some (linspace (self.control_freq_center - self.control_freq_span / 2)
        (self.control_freq_center + self.control_freq_span / 2) self.control_freq_nr) := by
  rw [run, if_pos h1, if_pos h2]
  unfold runBody
  dsimp only
  rcases jpaAdjustT env _ _ with e | T2
  · dsimp only
    rw [linspace_map_add]
    congr 2 <;> ring
  · dsimp only
    rw [linspace_map_add]
    congr 2 <;> ring

/-- Claim C1, witness: a concrete run with center 4, span 2, fs_dac 8 and
two frequency points. -/
theorem run_sets_control_freq_arr_witness :
    (run ⟨8, 1, 1, [0], [], "a"⟩
        ⟨1, 4, 2, 2, 1, 1, 1, 1, 1, [2], 1, 2, 3, 1, 1, 1, none, 0, none, none, none⟩
      ).final.control_freq_arr =
      some (linspace (4 - 2 / 2) (4 + 2 / 2) 2) :=
  run_sets_control_freq_arr _ _ (by norm_num) (by norm_num)

/-- Claim C8: `run` raises `AssertionError`, with no SDK call issued, exactly
when `control_freq_center ≤ control_freq_span / 2` or
`control_freq_span ≥ fs_dac / 2`; when both converse bounds hold neither
assertion can fire. -/
theorem run_assertion_guard (env : SdkEnv) (self : RamseyChevron) :
    (self.control_freq_center ≤ self.control_freq_span / 2 ∨
        env.fs_dac / 2 ≤ self.control_freq_span →
      run env self = { trace := [], final := self,
                       result := Except.error RunError.assertionError }) ∧
    (self.control_freq_span / 2 < self.control_freq_center ∧
        self.control_freq_span < env.fs_dac / 2 →
      (run env self).result ≠ Except.error RunError.assertionError) := by
  constructor
  · intro h
    rw [run]
    rcases h with h | h
    · rw [if_neg (not_lt.mpr h)]
    · by_cases hc : self.control_freq_center > self.control_freq_span / 2
      · rw [if_pos hc, if_neg (not_lt.mpr h)]
      · rw [if_neg hc]
  · rintro ⟨ha, hb⟩
    rw [run, if_pos ha, if_pos hb]
    unfold runBody
    dsimp only
    rcases hj : jpaAdjustT env _ _ with e | T2
    · dsimp only
      intro hcontra
      rw [Except.error.injEq] at hcontra
      subst hcontra
      revert hj
      unfold jpaAdjustT
      rcases self.jpa_params with _ | jp
      · simp
      · dsimp only
        split
        · simp
        · split <;> simp
    · simp

/-- Claim C8, witness: a violating instance (center 1 ≤ span 4 / 2) raises
with an empty trace; a satisfying one (center 4, span 2, fs_dac 8) never
raises `AssertionError`. -/
theorem run_assertion_guard_witness :
    run ⟨8, 1, 1, [0], [], "a"⟩
        ⟨1, 1, 4, 2, 1, 1, 1, 1, 1, [2], 1, 2, 3, 1, 1, 1, none, 0, none, none, none⟩
      = { trace := [],
          final := ⟨1, 1, 4, 2, 1, 1, 1, 1, 1, [2], 1, 2, 3, 1, 1, 1, none, 0, none,
            none, none⟩,
          result := Except.error RunError.assertionError } ∧
    (run ⟨8, 1, 1, [0], [], "a"⟩
        ⟨1, 4, 2, 2, 1, 1, 1, 1, 1, [2], 1, 2, 3, 1, 1, 1, none, 0, none, none, none⟩
      ).result ≠ Except.error RunError.assertionError :=
  ⟨(run_assertion_guard _ _).1 (Or.inl (by norm_num)),
   (run_assertion_guard _ _).2 ⟨by norm_num, by norm_num⟩⟩

/-- Claim C10: the constructor stores `delay_arr` as the 1-D float array
`np.atleast_1d(input)` — a scalar input becomes a length-1 array — and leaves
`control_freq_arr`, `t_arr` and `store_arr` as `None` (exact rationals stand
in for the float64 values). -/
theorem init_fields (rf cfc cfs : ℚ) (nr : ℕ) (ra ca rd cd sd : ℚ) (d : DelayInput)
    (rp cp sp : ℕ) (wd rsd : ℚ) (na : ℕ) (jp : Option JpaParams) (dr : ℚ) :
    (mkRamseyChevron rf cfc cfs nr ra ca rd cd sd d rp cp sp wd rsd na jp dr).delay_arr
        = atleast1d d ∧
    (∀ x, d = DelayInput.scalar x →
      (mkRamseyChevron rf cfc cfs nr ra ca rd cd sd d rp cp sp wd rsd na jp dr).delay_arr
        = [x]) ∧
    (mkRamseyChevron rf cfc cfs nr ra ca rd cd sd d rp cp sp wd rsd na jp dr).control_freq_arr
        = none ∧
    (mkRamseyChevron rf cfc cfs nr ra ca rd cd sd d rp cp sp wd rsd na jp dr).t_arr = none ∧
    (mkRamseyChevron rf cfc cfs nr ra ca rd cd sd d rp cp sp wd rsd na jp dr).store_arr
        = none := by
  refine ⟨rfl, ?_, rfl, rfl, rfl⟩
  rintro x rfl
  rfl

/-- Claim C10, witness: a scalar delay input at concrete parameters. -/
theorem init_fields_witness :
    (mkRamseyChevron 1 4 2 2 1 1 1 1 1 (DelayInput.scalar 7) 1 2 3 1 1 1 none
        0).delay_arr = atleast1d (DelayInput.scalar 7) ∧
    (∀ x, DelayInput.scalar 7 = DelayInput.scalar x →
      (mkRamseyChevron 1 4 2 2 1 1 1 1 1 (DelayInput.scalar 7) 1 2 3 1 1 1 none
        0).delay_arr = [x]) ∧
    (mkRamseyChevron 1 4 2 2 1 1 1 1 1 (DelayInput.scalar 7) 1 2 3 1 1 1 none
        0).control_freq_arr = none ∧
    (mkRamseyChevron 1 4 2 2 1 1 1 1 1 (DelayInput.scalar 7) 1 2 3 1 1 1 none
        0).t_arr = none ∧
    (mkRamseyChevron 1 4 2 2 1 1 1 1 1 (DelayInput.scalar 7) 1 2 3 1 1 1 none
        0).store_arr = none :=
  init_fields 1 4 2 2 1 1 1 1 1 (DelayInput.scalar 7) 1 2 3 1 1 1 none 0

/-- Claim C7: runs on two instances built from equal constructor parameters,
against an SDK giving the same responses (`env` fixes `get_fs`, `get_clk_f`,
`get_clk_T`, `get_store_data` and the save filename), produce identical
outcomes — the same call trace, the same `control_freq_arr`, `t_arr`,
`store_arr` and the same returned filename; the embedded program is a pure
function of these inputs. -/
theorem run_deterministic (env : SdkEnv)
    (rf1 cfc1 cfs1 : ℚ) (nr1 : ℕ) (ra1 ca1 rd1 cd1 sd1 : ℚ) (d1 : DelayInput)
    (rp1 cp1 sp1 : ℕ) (wd1 rsd1 : ℚ) (na1 : ℕ) (jp1 : Option JpaParams) (dr1 : ℚ)
    (rf2 cfc2 cfs2 : ℚ) (nr2 : ℕ) (ra2 ca2 rd2 cd2 sd2 : ℚ) (d2 : DelayInput)
    (rp2 cp2 sp2 : ℕ) (wd2 rsd2 : ℚ) (na2 : ℕ) (jp2 : Option JpaParams) (dr2 : ℚ)
    (h1 : rf1 = rf2) (h2 : cfc1 = cfc2) (h3 : cfs1 = cfs2) (h4 : nr1 = nr2)
    (h5 : ra1 = ra2) (h6 : ca1 = ca2) (h7 : rd1 = rd2) (h8 : cd1 = cd2)
    (h9 : sd1 = sd2) (h10 : d1 = d2) (h11 : rp1 = rp2) (h12 : cp1 = cp2)
    (h13 : sp1 = sp2) (h14 : wd1 = wd2) (h15 : rsd1 = rsd2) (h16 : na1 = na2)
    (h17 : jp1 = jp2) (h18 : dr1 = dr2) :
    run env (mkRamseyChevron rf1 cfc1 cfs1 nr1 ra1 ca1 rd1 cd1 sd1 d1 rp1 cp1 sp1
        wd1 rsd1 na1 jp1 dr1)
      = run env (mkRamseyChevron rf2 cfc2 cfs2 nr2 ra2 ca2 rd2 cd2 sd2 d2 rp2 cp2
        sp2 wd2 rsd2 na2 jp2 dr2) := by
  subst h1 h2 h3 h4 h5 h6 h7 h8 h9 h10 h11 h12 h13 h14 h15 h16 h17 h18
  rfl

/-- Claim C7, witness: two identical constructions at concrete parameters. -/
theorem run_deterministic_witness :
    run ⟨8, 1, 1, [0], [], "a"⟩
        (mkRamseyChevron 1 4 2 2 1 1 1 1 1 (DelayInput.arr [2]) 1 2 3 1 1 1 none 0)
      = run ⟨8, 1, 1, [0], [], "a"⟩
        (mkRamseyChevron 1 4 2 2 1 1 1 1 1 (DelayInput.arr [2]) 1 2 3 1 1 1 none 0) :=
  run_deterministic ⟨8, 1, 1, [0], [], "a"⟩
    1 4 2 2 1 1 1 1 1 (DelayInput.arr [2]) 1 2 3 1 1 1 none 0
    1 4 2 2 1 1 1 1 1 (DelayInput.arr [2]) 1 2 3 1 1 1 none 0
    rfl rfl rfl rfl rfl rfl rfl rfl rfl rfl rfl rfl rfl rfl rfl rfl rfl rfl

theorem seqStep_eq (self : RamseyChevron) (T : ℚ) (tr : List SdkCall) (d : ℚ) :
    seqStep self (T, tr) d = (T + iterPeriod self d, tr ++ iterCalls self T d) := by
  unfold seqStep iterCalls iterPeriod
  dsimp only
  refine Prod.ext ?_ ?_
  · dsimp only
    ring
  · dsimp only
    ring_nf
    simp [List.append_assoc]

theorem seqLoop_eq (self : RamseyChevron) (delays : List ℚ) (T : ℚ)
    (tr : List SdkCall) :
    seqLoop self delays (T, tr) =
      (T + (delays.map (iterPeriod self)).sum, tr ++ seqCallsFrom self T delays) := by
  induction delays generalizing T tr with
  | nil => simp [seqLoop, seqCallsFrom]
  | cons d ds ih =>
      rw [seqLoop, List.foldl_cons, seqStep_eq]
      rw [show List.foldl (seqStep self) (T + iterPeriod self d, tr ++ iterCalls self T d) ds
        = seqLoop self ds (T + iterPeriod self d, tr ++ iterCalls self T d) from rfl]
      rw [ih]
      refine Prod.ext ?_ ?_
      · dsimp only
        rw [List.map_cons, List.sum_cons]
        ring
      · dsimp only
        rw [seqCallsFrom, List.append_assoc]

theorem hwConfigCalls_update (self : RamseyChevron) (x : Option (List ℚ)) (nco : ℚ) :
    hwConfigCalls { self with control_freq_arr := x } nco = hwConfigCalls self nco := rfl

theorem setupCalls_update (env : SdkEnv) (self : RamseyChevron) (x : Option (List ℚ))
    (arr : List ℚ) :
    setupCalls env { self with control_freq_arr := x } arr = setupCalls env self arr := rfl

theorem jpaAdjustT_none (env : SdkEnv) (s : RamseyChevron)
    (h : s.jpa_params = none) (T : ℚ) : jpaAdjustT env s T = Except.ok T := by
  unfold jpaAdjustT
  rw [h]

theorem jpaOffCalls_update2 (self : RamseyChevron) (x y : Option (List ℚ))
    (z : Option (List (List (List Cq)))) :
    jpaOffCalls { self with control_freq_arr := x, t_arr := y, store_arr := z }
      = jpaOffCalls self := rfl

theorem iterPeriod_update (self : RamseyChevron) (x : Option (List ℚ)) :
    iterPeriod { self with control_freq_arr := x } = iterPeriod self := rfl

theorem seqCallsFrom_update (self : RamseyChevron) (x : Option (List ℚ)) (T : ℚ)
    (ds : List ℚ) :
    seqCallsFrom { self with control_freq_arr := x } T ds = seqCallsFrom self T ds := by
  induction ds generalizing T with
  | nil => rfl
  | cons d dtl ih =>
      rw [seqCallsFrom, seqCallsFrom,
        show iterCalls { self with control_freq_arr := x } T d = iterCalls self T d from rfl,
        show iterPeriod { self with control_freq_arr := x } d = iterPeriod self d from rfl,
        ih]

/-- Claim C2 (amended): with `jpa_params = None` and the assertions satisfied,
the trace of `run` is the configuration prefix followed, for every `delay` of
`delay_arr` in order, by a block of exactly two control-pulse outputs whose
start times differ by `control_duration + delay`, one readout-pulse output at
the time the second control pulse ends, and one store call at that readout
time plus `readout_sample_delay` (see `iterCalls`/`seqCallsFrom`); the
accumulated period — the sum over delays of
`2*control_duration + delay + readout_duration + wait_delay` plus one extra
`wait_delay` — is passed to `pls.run` with `repeat_count = control_freq_nr`. -/
theorem run_schedule (env : SdkEnv) (self : RamseyChevron)
    (h1 : self.control_freq_center > self.control_freq_span / 2)
    (h2 : self.control_freq_span < env.fs_dac / 2)
    (hjpa : self.jpa_params = none) :
    (run env self).trace =
      hwConfigCalls self (self.control_freq_center - env.fs_dac / 4)
      ++ setupCalls env self (linspace (env.fs_dac / 4 - self.control_freq_span / 2)
           (env.fs_dac / 4 + self.control_freq_span / 2) self.control_freq_nr)
      ++ seqCallsFrom self 0 self.delay_arr
      ++ [SdkCall.next_frequency ((self.delay_arr.map (iterPeriod self)).sum)
            self.control_port,
          SdkCall.run_exp ((self.delay_arr.map (iterPeriod self)).sum + self.wait_delay)
            self.control_freq_nr self.num_averages,
          SdkCall.get_store_data, SdkCall.save] := by
  rw [run, if_pos h1, if_pos h2]
  unfold runBody
  dsimp only
  rw [jpaAdjustT_none env
    { self with control_freq_arr := some (List.map
        (fun x => self.control_freq_center - env.fs_dac / 4 + x)
        (linspace (env.fs_dac / 4 - self.control_freq_span / 2)
          (env.fs_dac / 4 + self.control_freq_span / 2) self.control_freq_nr)) }
    hjpa]
  dsimp only
  rw [seqLoop_eq]
  dsimp only
  rw [seqCallsFrom_update, hwConfigCalls_update, setupCalls_update, iterPeriod_update,
    jpaOffCalls_update2]
  rw [jpaOffCalls, hjpa]
  simp only [zero_add, List.append_assoc, List.cons_append, List.nil_append,
    List.append_nil]

/-- Claim C2, counterexample to the claim as stated: with
`control_duration = 1` and a single delay of `2` (first control pulse at time
0), the second control pulse starts at `3` and ends at `4`; the only
readout-pulse output is issued at time `4` — the time the second control
pulse ends — and there is none at time `5`, the time the claim as stated
("the time the second control pulse ends plus control_duration") demands. -/
theorem run_schedule_counterexample :
    SdkCall.output_pulse 0 PulseId.control ∈
      (run ⟨8, 1, 1, [0], [], "a"⟩
        ⟨1, 4, 2, 2, 1, 1, 1, 1, 1, [2], 1, 2, 3, 1, 1, 1, none, 0, none, none,
          none⟩).trace ∧
    SdkCall.output_pulse 3 PulseId.control ∈
      (run ⟨8, 1, 1, [0], [], "a"⟩
        ⟨1, 4, 2, 2, 1, 1, 1, 1, 1, [2], 1, 2, 3, 1, 1, 1, none, 0, none, none,
          none⟩).trace ∧
    SdkCall.output_pulse 4 PulseId.readout ∈
      (run ⟨8, 1, 1, [0], [], "a"⟩
        ⟨1, 4, 2, 2, 1, 1, 1, 1, 1, [2], 1, 2, 3, 1, 1, 1, none, 0, none, none,
          none⟩).trace ∧
    SdkCall.output_pulse 5 PulseId.readout ∉
      (run ⟨8, 1, 1, [0], [], "a"⟩
        ⟨1, 4, 2, 2, 1, 1, 1, 1, 1, [2], 1, 2, 3, 1, 1, 1, none, 0, none, none,
          none⟩).trace := by
  refine ⟨?_, ?_, ?_, ?_⟩ <;>
  · rw [run, if_pos (by norm_num), if_pos (by norm_num)]
    dsimp only [runBody, jpaAdjustT, seqLoop, seqStep, hwConfigCalls, setupCalls,
      jpaOnCalls, jpaOffCalls, linspace, List.range, List.range.loop, List.foldl,
      baseSave]
    norm_num [List.mem_cons] <;> simp

/-- Claim C2, witness for the amended schedule at concrete parameters
(`control_duration = 1`, one delay of `2`, `wait_delay = 1`,
`control_freq_nr = 2`, no JPA). -/
theorem run_schedule_witness :
    (run ⟨8, 1, 1, [0], [], "a"⟩
        ⟨1, 4, 2, 2, 1, 1, 1, 1, 1, [2], 1, 2, 3, 1, 1, 1, none, 0, none, none,
          none⟩).trace =
      hwConfigCalls
          ⟨1, 4, 2, 2, 1, 1, 1, 1, 1, [2], 1, 2, 3, 1, 1, 1, none, 0, none, none,
            none⟩ (4 - 8 / 4)
      ++ setupCalls ⟨8, 1, 1, [0], [], "a"⟩
          ⟨1, 4, 2, 2, 1, 1, 1, 1, 1, [2], 1, 2, 3, 1, 1, 1, none, 0, none, none,
            none⟩ (linspace (8 / 4 - 2 / 2) (8 / 4 + 2 / 2) 2)
      ++ seqCallsFrom
          ⟨1, 4, 2, 2, 1, 1, 1, 1, 1, [2], 1, 2, 3, 1, 1, 1, none, 0, none, none,
            none⟩ 0 [2]
      ++ [SdkCall.next_frequency ((List.map (iterPeriod
            ⟨1, 4, 2, 2, 1, 1, 1, 1, 1, [2], 1, 2, 3, 1, 1, 1, none, 0, none, none,
              none⟩) [2]).sum) 2,
          SdkCall.run_exp ((List.map (iterPeriod
            ⟨1, 4, 2, 2, 1, 1, 1, 1, 1, [2], 1, 2, 3, 1, 1, 1, none, 0, none, none,
              none⟩) [2]).sum + 1) 2 1,
          SdkCall.get_store_data, SdkCall.save] :=
  run_schedule ⟨8, 1, 1, [0], [], "a"⟩
    ⟨1, 4, 2, 2, 1, 1, 1, 1, 1, [2], 1, 2, 3, 1, 1, 1, none, 0, none, none, none⟩
    (by norm_num) (by norm_num) rfl

/-- Claim C5: every successful `run` performs, in order, the hardware/mixer
and measurement-parameter configuration built from the constructor
parameters, then the pulse schedule, then the vendor-SDK execution
(`pls.run`), then the `get_store_data` acquisition whose results are assigned
to `t_arr` and `store_arr`, and finally `save`; the returned string is the
filename returned by `save`. -/
theorem run_step_order (env : SdkEnv) (self : RamseyChevron) (fn : String)
    (hok : (run env self).result = Except.ok fn) :
    ∃ T1 T2,
      (run env self).trace =
        hwConfigCalls self (self.control_freq_center - env.fs_dac / 4)
        ++ setupCalls env self (linspace (env.fs_dac / 4 - self.control_freq_span / 2)
             (env.fs_dac / 4 + self.control_freq_span / 2) self.control_freq_nr)
        ++ seqCallsFrom self 0 self.delay_arr
        ++ [SdkCall.next_frequency T1 self.control_port,
            SdkCall.run_exp T2 self.control_freq_nr self.num_averages,
            SdkCall.get_store_data]
        ++ jpaOffCalls self ++ [SdkCall.save] ∧
      (run env self).final.t_arr = some env.store_t_arr ∧
      (run env self).final.store_arr = some env.store_data ∧
      fn = (baseSave env (run env self).final).1 := by
  rw [run] at hok ⊢
  by_cases h1 : self.control_freq_center > self.control_freq_span / 2
  · rw [if_pos h1] at hok ⊢
    by_cases h2 : self.control_freq_span < env.fs_dac / 2
    · rw [if_pos h2] at hok ⊢
      unfold runBody at hok ⊢
      dsimp only at hok ⊢
      cases hj : jpaAdjustT env
        { self with control_freq_arr := some (List.map
            (fun x => self.control_freq_center - env.fs_dac / 4 + x)
            (linspace (env.fs_dac / 4 - self.control_freq_span / 2)
              (env.fs_dac / 4 + self.control_freq_span / 2) self.control_freq_nr)) }
        ((seqLoop
            { self with control_freq_arr := some (List.map
                (fun x => self.control_freq_center - env.fs_dac / 4 + x)
                (linspace (env.fs_dac / 4 - self.control_freq_span / 2)
                  (env.fs_dac / 4 + self.control_freq_span / 2) self.control_freq_nr)) }
            self.delay_arr
            (0, hwConfigCalls
                { self with control_freq_arr := some (List.map
                    (fun x => self.control_freq_center - env.fs_dac / 4 + x)
                    (linspace (env.fs_dac / 4 - self.control_freq_span / 2)
                      (env.fs_dac / 4 + self.control_freq_span / 2)
                      self.control_freq_nr)) }
                  (self.control_freq_center - env.fs_dac / 4) ++
              setupCalls env
                { self with control_freq_arr := some (List.map
                    (fun x => self.control_freq_center - env.fs_dac / 4 + x)
                    (linspace (env.fs_dac / 4 - self.control_freq_span / 2)
                      (env.fs_dac / 4 + self.control_freq_span / 2)
                      self.control_freq_nr)) }
                (linspace (env.fs_dac / 4 - self.control_freq_span / 2)
                  (env.fs_dac / 4 + self.control_freq_span / 2)
                  self.control_freq_nr))).1 +
          self.wait_delay) with
      | error e =>
          rw [hj] at hok
          simp at hok
      | ok T2 =>
          rw [hj] at hok
          dsimp only at hok ⊢
          rw [seqLoop_eq]
          dsimp only
          rw [seqCallsFrom_update, hwConfigCalls_update, setupCalls_update,
            iterPeriod_update, jpaOffCalls_update2]
          refine ⟨0 + (List.map (iterPeriod self) self.delay_arr).sum, T2, ?_,
            rfl, rfl, ?_⟩
          · simp only [List.append_assoc, List.cons_append, List.nil_append]
          · simp only [Except.ok.injEq] at hok
            exact hok.symm
    · rw [if_neg h2] at hok
      simp at hok
  · rw [if_neg h1] at hok
    simp at hok

/-- Claim C5, witness: a concrete successful run (no JPA), returning the
environment-stamped filename with the data assigned. -/
theorem run_step_order_witness :
    ∃ T1 T2,
      (run ⟨8, 1, 1, [0], [], "a"⟩
          ⟨1, 4, 2, 2, 1, 1, 1, 1, 1, [2], 1, 2, 3, 1, 1, 1, none, 0, none, none,
            none⟩).trace =
        hwConfigCalls
            ⟨1, 4, 2, 2, 1, 1, 1, 1, 1, [2], 1, 2, 3, 1, 1, 1, none, 0, none, none,
              none⟩ (4 - 8 / 4)
        ++ setupCalls ⟨8, 1, 1, [0], [], "a"⟩
            ⟨1, 4, 2, 2, 1, 1, 1, 1, 1, [2], 1, 2, 3, 1, 1, 1, none, 0, none, none,
              none⟩ (linspace (8 / 4 - 2 / 2) (8 / 4 + 2 / 2) 2)
        ++ seqCallsFrom
            ⟨1, 4, 2, 2, 1, 1, 1, 1, 1, [2], 1, 2, 3, 1, 1, 1, none, 0, none, none,
              none⟩ 0 [2]
        ++ [SdkCall.next_frequency T1 2, SdkCall.run_exp T2 2 1,
            SdkCall.get_store_data]
        ++ jpaOffCalls
            ⟨1, 4, 2, 2, 1, 1, 1, 1, 1, [2], 1, 2, 3, 1, 1, 1, none, 0, none, none,
              none⟩
        ++ [SdkCall.save] ∧
      (run ⟨8, 1, 1, [0], [], "a"⟩
          ⟨1, 4, 2, 2, 1, 1, 1, 1, 1, [2], 1, 2, 3, 1, 1, 1, none, 0, none, none,
            none⟩).final.t_arr = some [0] ∧
      (run ⟨8, 1, 1, [0], [], "a"⟩
          ⟨1, 4, 2, 2, 1, 1, 1, 1, 1, [2], 1, 2, 3, 1, 1, 1, none, 0, none, none,
            none⟩).final.store_arr = some [] ∧
      "a" = (baseSave ⟨8, 1, 1, [0], [], "a"⟩
          (run ⟨8, 1, 1, [0], [], "a"⟩
            ⟨1, 4, 2, 2, 1, 1, 1, 1, 1, [2], 1, 2, 3, 1, 1, 1, none, 0, none, none,
              none⟩).final).1 :=
  run_step_order ⟨8, 1, 1, [0], [], "a"⟩
    ⟨1, 4, 2, 2, 1, 1, 1, 1, 1, [2], 1, 2, 3, 1, 1, 1, none, 0, none, none, none⟩
    "a" (by rw [run, if_pos (by norm_num), if_pos (by norm_num)]; rfl)

/-- Claim C3: loading the file written by `save` reproduces the instance —
every constructor parameter and every array is equal to the original ones
(stated for instances whose run-produced fields are set, as after `run`).
`Base.save` is modelled from the spec as writing every attribute and array
verbatim. -/
theorem load_save_roundtrip (self : RamseyChevron)
    (h1 : self.control_freq_arr.isSome) (h2 : self.t_arr.isSome)
    (h3 : self.store_arr.isSome) :
    load (mkSaveFile self) = some self := by
  rcases self with ⟨rf, cfc, cfs, nr, ra, ca, rd, cd, sd, da, rp, cp, sp, wd, rsd,
    na, jp, dr, cfa, ta, sa⟩
  rcases Option.isSome_iff_exists.mp h1 with ⟨v1, hv1⟩
  rcases Option.isSome_iff_exists.mp h2 with ⟨v2, hv2⟩
  rcases Option.isSome_iff_exists.mp h3 with ⟨v3, hv3⟩
  dsimp only at hv1 hv2 hv3
  subst hv1 hv2 hv3
  rfl

/-- Claim C3, witness: a concrete instance with run-produced fields set
round-trips through `save`/`load`. -/
theorem load_save_roundtrip_witness :
    load (mkSaveFile ⟨1, 4, 2, 2, 1, 1, 1, 1, 1, [2], 1, 2, 3, 1, 1, 1, none, 0,
        some [3, 5], some [0], some [[[(1, 2)]]]⟩)
      = some ⟨1, 4, 2, 2, 1, 1, 1, 1, 1, [2], 1, 2, 3, 1, 1, 1, none, 0,
        some [3, 5], some [0], some [[[(1, 2)]]]⟩ :=
  load_save_roundtrip _ rfl rfl rfl

/-- Claim C9: `load` succeeds exactly when every required attribute and
dataset is present — the absence of any of them propagates as a failure —
while the `"drag"` attribute is optional: when it is absent the loaded
instance has `drag = 0.0`. -/
theorem load_drag_optional (f : SaveFile) :
    ((load f).isSome ↔
      (f.readout_freq.isSome ∧
       f.control_freq_center.isSome ∧
       f.control_freq_span.isSome ∧
       f.control_freq_nr.isSome ∧
       f.readout_amp.isSome ∧
       f.control_amp.isSome ∧
       f.readout_duration.isSome ∧
       f.control_duration.isSome ∧
       f.sample_duration.isSome ∧
       f.delay_arr.isSome ∧
       f.readout_port.isSome ∧
       f.control_port.isSome ∧
       f.sample_port.isSome ∧
       f.wait_delay.isSome ∧
       f.readout_sample_delay.isSome ∧
       f.num_averages.isSome ∧
       f.jpa_params.isSome ∧
       f.control_freq_arr.isSome ∧
       f.t_arr.isSome ∧
       f.store_arr.isSome)) ∧
    (∀ self, load f = some self → f.drag = none → self.drag = 0) := by
  rcases f with ⟨a1, a2, a3, a4, a5, a6, a7, a8, a9, a10, a11, a12, a13, a14, a15,
    a16, a17, a18, a19, a20, a21⟩
  rcases a1 with _ | a1
  · exact ⟨by simp [load], fun self h => by simp [load] at h⟩
  rcases a2 with _ | a2
  · exact ⟨by simp [load], fun self h => by simp [load] at h⟩
  rcases a3 with _ | a3
  · exact ⟨by simp [load], fun self h => by simp [load] at h⟩
  rcases a4 with _ | a4
  · exact ⟨by simp [load], fun self h => by simp [load] at h⟩
  rcases a5 with _ | a5
  · exact ⟨by simp [load], fun self h => by simp [load] at h⟩
  rcases a6 with _ | a6
  · exact ⟨by simp [load], fun self h => by simp [load] at h⟩
  rcases a7 with _ | a7
  · exact ⟨by simp [load], fun self h => by simp [load] at h⟩
  rcases a8 with _ | a8
  · exact ⟨by simp [load], fun self h => by simp [load] at h⟩
  rcases a9 with _ | a9
  · exact ⟨by simp [load], fun self h => by simp [load] at h⟩
  rcases a10 with _ | a10
  · exact ⟨by simp [load], fun self h => by simp [load] at h⟩
  rcases a11 with _ | a11
  · exact ⟨by simp [load], fun self h => by simp [load] at h⟩
  rcases a12 with _ | a12
  · exact ⟨by simp [load], fun self h => by simp [load] at h⟩
  rcases a13 with _ | a13
  · exact ⟨by simp [load], fun self h => by simp [load] at h⟩
  rcases a14 with _ | a14
  · exact ⟨by simp [load], fun self h => by simp [load] at h⟩
  rcases a15 with _ | a15
  · exact ⟨by simp [load], fun self h => by simp [load] at h⟩
  rcases a16 with _ | a16
  · exact ⟨by simp [load], fun self h => by simp [load] at h⟩
  rcases a17 with _ | a17
  · exact ⟨by simp [load], fun self h => by simp [load] at h⟩
  rcases a18 with _ | a18
  · exact ⟨by simp [load], fun self h => by simp [load] at h⟩
  rcases a19 with _ | a19
  · exact ⟨by simp [load], fun self h => by simp [load] at h⟩
  rcases a20 with _ | a20
  · exact ⟨by simp [load], fun self h => by simp [load] at h⟩
  refine ⟨by simp [load], ?_⟩
  intro self h hd
  dsimp only at hd
  subst hd
  dsimp only [load] at h
  injection h with h
  subst h
  rfl

/-- Claim C9, witness: a concrete file missing only `"drag"` loads
successfully, and the loaded instance has `drag = 0`. -/
theorem load_drag_optional_witness :
    (load ⟨some 1, some 4, some 2, some 2, some 1, some 1, some 1, some 1, some 1,
        some [2], some 1, some 2, some 3, some 1, some 1, some 1, some none,
        some [3, 5], some [0], some [[[(1, 2)]]], none⟩).isSome = true ∧
    (⟨1, 4, 2, 2, 1, 1, 1, 1, 1, [2], 1, 2, 3, 1, 1, 1, none, 0, some [3, 5],
        some [0], some [[[(1, 2)]]]⟩ : RamseyChevron).drag = 0 :=
  ⟨(load_drag_optional _).1.mpr
      ⟨rfl, rfl, rfl, rfl, rfl, rfl, rfl, rfl, rfl, rfl, rfl, rfl, rfl, rfl, rfl,
        rfl, rfl, rfl, rfl, rfl⟩,
   (load_drag_optional
      ⟨some 1, some 4, some 2, some 2, some 1, some 1, some 1, some 1, some 1,
        some [2], some 1, some 2, some 3, some 1, some 1, some 1, some none,
        some [3, 5], some [0], some [[[(1, 2)]]], none⟩).2
     ⟨1, 4, 2, 2, 1, 1, 1, 1, 1, [2], 1, 2, 3, 1, 1, 1, none, 0, some [3, 5],
        some [0], some [[[(1, 2)]]]⟩ rfl rfl⟩

/-- The fit loop of `analyze` stopped after `n` iterations, for the loop
invariant. -/
def fitFold (fit : ℕ → Except Unit ((Fin 5 → ℚ) × (Fin 5 → ℚ)))
    (init : List FVal × List FVal) (n : ℕ) : List FVal × List FVal :=
  (List.range n).foldl (fun acc jj => fitRowUpdate acc jj (fit jj)) init

theorem analyzeFits_eq_fitFold (fit : ℕ → Except Unit ((Fin 5 → ℚ) × (Fin 5 → ℚ)))
    (nr : ℕ) :
    analyzeFits fit nr =
      fitFold fit (List.replicate nr (FVal.val 0), List.replicate nr (FVal.val 0)) nr :=
  rfl

theorem fitFold_succ (fit : ℕ → Except Unit ((Fin 5 → ℚ) × (Fin 5 → ℚ)))
    (init : List FVal × List FVal) (n : ℕ) :
    fitFold fit init (n + 1) = fitRowUpdate (fitFold fit init n) n (fit n) := by
  rw [fitFold, List.range_succ, List.foldl_append, List.foldl_cons, List.foldl_nil]
  rfl

theorem fitFold_spec (fit : ℕ → Except Unit ((Fin 5 → ℚ) × (Fin 5 → ℚ)))
    (init : List FVal × List FVal) (n : ℕ) :
    ((fitFold fit init n).1.length = init.1.length ∧
     (fitFold fit init n).2.length = init.2.length) ∧
    (∀ jj, n ≤ jj →
      (fitFold fit init n).1[jj]? = init.1[jj]? ∧
      (fitFold fit init n).2[jj]? = init.2[jj]?) ∧
    (∀ jj, jj < n → jj < init.1.length → jj < init.2.length →
      (fitFold fit init n).1[jj]? = some (match fit jj with
          | Except.error _ => FVal.nan
          | Except.ok (popt, _) => FVal.val |popt 3|) ∧
      (fitFold fit init n).2[jj]? = (match fit jj with
          | Except.error _ => init.2[jj]?
          | Except.ok (_, perr) => some (FVal.val (perr 3)))) := by
  induction n with
  | zero =>
      refine ⟨⟨rfl, rfl⟩, fun jj _ => ⟨rfl, rfl⟩, fun jj h _ _ => absurd h (by omega)⟩
  | succ n ih =>
      obtain ⟨⟨hl1, hl2⟩, huntouched, hdone⟩ := ih
      rw [fitFold_succ]
      rcases hr : fit n with e | ⟨popt, perr⟩
      · refine ⟨⟨?_, ?_⟩, ?_, ?_⟩
        · simp [fitRowUpdate, hl1]
        · simp [fitRowUpdate, hl2]
        · intro jj hjj
          simp only [fitRowUpdate]
          exact ⟨by rw [List.getElem?_set_ne (by omega), (huntouched jj (by omega)).1],
                 (huntouched jj (by omega)).2⟩
        · intro jj hjj h1 h2
          rcases Nat.lt_succ_iff_lt_or_eq.mp hjj with hlt | heq
          · simp only [fitRowUpdate]
            refine ⟨?_, ?_⟩
            · rw [List.getElem?_set_ne (by omega)]
              exact (hdone jj hlt h1 h2).1
            · exact (hdone jj hlt h1 h2).2
          · subst heq
            simp only [fitRowUpdate]
            refine ⟨?_, ?_⟩
            · rw [List.getElem?_set_self (by rw [hl1]; exact h1), hr]
            · rw [(huntouched jj (by omega)).2, hr]
      · refine ⟨⟨?_, ?_⟩, ?_, ?_⟩
        · simp [fitRowUpdate, hl1]
        · simp [fitRowUpdate, hl2]
        · intro jj hjj
          simp only [fitRowUpdate]
          exact ⟨by rw [List.getElem?_set_ne (by omega), (huntouched jj (by omega)).1],
                 by rw [List.getElem?_set_ne (by omega), (huntouched jj (by omega)).2]⟩
        · intro jj hjj h1 h2
          rcases Nat.lt_succ_iff_lt_or_eq.mp hjj with hlt | heq
          · simp only [fitRowUpdate]
            refine ⟨?_, ?_⟩
            · rw [List.getElem?_set_ne (by omega)]
              exact (hdone jj hlt h1 h2).1
            · rw [List.getElem?_set_ne (by omega)]
              rw [(hdone jj hlt h1 h2).2]
          · subst heq
            simp only [fitRowUpdate]
            refine ⟨?_, ?_⟩
            · rw [List.getElem?_set_self (by rw [hl1]; exact h1), hr]
            · rw [List.getElem?_set_self (by rw [hl2]; exact h2), hr]

/-- Claim C4: for every frequency index `jj < control_freq_nr`, if the
(abstracted) `_fit_simple` raises for row `jj` then `fit_freq[jj]` is NaN,
and if it succeeds then `fit_freq[jj] = |popt[3]|` and
`err_freq[jj] = perr[3]`; the loop catches the exception instead of
propagating it, always producing a value for every row. -/
theorem analyze_fit_rows (fit : ℕ → Except Unit ((Fin 5 → ℚ) × (Fin 5 → ℚ)))
    (nr jj : ℕ) (h : jj < nr) :
    (∀ e, fit jj = Except.error e →
      (analyzeFits fit nr).1[jj]? = some FVal.nan) ∧
    (∀ popt perr, fit jj = Except.ok (popt, perr) →
      (analyzeFits fit nr).1[jj]? = some (FVal.val |popt 3|) ∧
      (analyzeFits fit nr).2[jj]? = some (FVal.val (perr 3))) := by
  have hspec := (fitFold_spec fit
    (List.replicate nr (FVal.val 0), List.replicate nr (FVal.val 0)) nr).2.2 jj h
    (by simpa using h) (by simpa using h)
  rw [analyzeFits_eq_fitFold]
  constructor
  · intro e he
    have h1 := hspec.1
    rw [he] at h1
    exact h1
  · intro popt perr hok
    have h1 := hspec.1
    have h2 := hspec.2
    rw [hok] at h1 h2
    exact ⟨h1, h2⟩

/-- Claim C4, witness: a concrete oracle succeeding on row 0 with
`popt 3 = 2`, `perr 3 = 3` and raising on row 1. -/
theorem analyze_fit_rows_witness :
    ((analyzeFits (fun jj => if jj = 0
        then Except.ok ((fun _ => 2, fun _ => 3) : (Fin 5 → ℚ) × (Fin 5 → ℚ))
        else Except.error ()) 2).1[0]? = some (FVal.val |(2 : ℚ)|)) ∧
    ((analyzeFits (fun jj => if jj = 0
        then Except.ok ((fun _ => 2, fun _ => 3) : (Fin 5 → ℚ) × (Fin 5 → ℚ))
        else Except.error ()) 2).2[0]? = some (FVal.val 3)) ∧
    ((analyzeFits (fun jj => if jj = 0
        then Except.ok ((fun _ => 2, fun _ => 3) : (Fin 5 → ℚ) × (Fin 5 → ℚ))
        else Except.error ()) 2).1[1]? = some FVal.nan) :=
  ⟨((analyze_fit_rows _ 2 0 (by omega)).2 _ _ rfl).1,
   ((analyze_fit_rows _ 2 0 (by omega)).2 _ _ rfl).2,
   (analyze_fit_rows _ 2 1 (by omega)).1 () rfl⟩

/-- Claim C6: given that the first axis of `store_arr` has length
`control_freq_nr * len(delay_arr)`, the 2-D response map of `analyze` has
shape `(control_freq_nr, len(delay_arr))` — rows indexed by swept control
frequency, columns co-indexed with `delay_arr` — and its `(i, j)` entry is
the mean over the sample window `IDX_LOW ≤ k < IDX_HIGH` of store port 0 of
repetition `i * len(delay_arr) + j`. -/
theorem analyze_resp_map (self : RamseyChevron) (store : List (List (List Cq)))
    (hs : self.store_arr = some store)
    (hlen : store.length = self.control_freq_nr * self.delay_arr.length)
    (i j : ℕ) (hi : i < self.control_freq_nr) (hj : j < self.delay_arr.length) :
    (respMap self.control_freq_nr self.delay_arr.length store).length
        = self.control_freq_nr ∧
    ((respMap self.control_freq_nr self.delay_arr.length store).getD i []).length
        = self.delay_arr.length ∧
    ((respMap self.control_freq_nr self.delay_arr.length store).getD i []).getD j
        (0, 0)
      = cMean ((((store.getD (i * self.delay_arr.length + j) []).headD []).drop
          IDX_LOW).take (IDX_HIGH - IDX_LOW)) := by
  have hnd : i * self.delay_arr.length + self.delay_arr.length
      ≤ self.control_freq_nr * self.delay_arr.length := by
    have := Nat.mul_le_mul_right self.delay_arr.length (Nat.succ_le_of_lt hi)
    rw [Nat.succ_mul] at this
    exact this
  have hrow : (respMap self.control_freq_nr self.delay_arr.length store).getD i []
      = ((respArr store).drop (i * self.delay_arr.length)).take
          self.delay_arr.length := by
    rw [respMap, reshape2d, List.getD_eq_getElem?_getD, List.getElem?_map,
      List.getElem?_range hi]
    rfl
  have hlenresp : (respArr store).length
      = self.control_freq_nr * self.delay_arr.length := by
    rw [respArr, List.length_map, hlen]
  refine ⟨?_, ?_, ?_⟩
  · rw [respMap, reshape2d, List.length_map, List.length_range]
  · rw [hrow, List.length_take, List.length_drop, hlenresp]
    have : self.delay_arr.length
        ≤ self.control_freq_nr * self.delay_arr.length - i * self.delay_arr.length :=
      Nat.le_sub_of_add_le (by omega)
    omega
  · rw [hrow, List.getD_eq_getElem?_getD, List.getElem?_take, if_pos hj,
      List.getElem?_drop, respArr, List.getElem?_map]
    have hk : i * self.delay_arr.length + j < store.length := by omega
    rw [List.getElem?_eq_getElem hk]
    rw [List.getD_eq_getElem?_getD, List.getElem?_eq_getElem hk]
    rfl

/-- Claim C6, witness: a single repetition (`control_freq_nr = 1`, one
delay), store port 0 holding 2000 zero samples. -/
theorem analyze_resp_map_witness :
    (respMap 1 1 [[List.replicate 2000 ((0 : ℚ), (0 : ℚ))]]).length = 1 ∧
    ((respMap 1 1 [[List.replicate 2000 ((0 : ℚ), (0 : ℚ))]]).getD 0 []).length = 1 ∧
    ((respMap 1 1 [[List.replicate 2000 ((0 : ℚ), (0 : ℚ))]]).getD 0 []).getD 0 (0, 0)
      = cMean (((([[List.replicate 2000 ((0 : ℚ), (0 : ℚ))]].getD (0 * 1 + 0)
          []).headD []).drop IDX_LOW).take (IDX_HIGH - IDX_LOW)) :=
  analyze_resp_map
    ⟨1, 4, 2, 1, 1, 1, 1, 1, 1, [2], 1, 2, 3, 1, 1, 1, none, 0, none, none,
      some [[List.replicate 2000 ((0 : ℚ), (0 : ℚ))]]⟩
    [[List.replicate 2000 ((0 : ℚ), (0 : ℚ))]] rfl rfl 0 0 (by decide) (by decide)
